import Mathlib

/-!
Verification of the gold-trading system's decision/risk/backtest core.

Shallow embedding of:
* `src/agents/risk/risk_management_agent.py` (`RiskManagementAgent`)
* `src/agents/meta_agent.py` (`MetaAgentOrchestrator`)
* `src/agents/decision/decision_agent.py` (`DecisionAgent`)
* `src/backtesting/engine.py` (`BacktestEngine`), `models.py` (`Trade`)
* `src/backtesting/metrics.py` (`PerformanceMetrics`)
* `src/backtesting/regime_detector.py` (`MarketRegimeDetector`)

Prices, balances, signals and confidences are modelled as exact rationals;
timestamps as naturals.  Free-form diagnostic strings are abstracted into
small inductive types (one constructor per distinct message site).
-/

set_option autoImplicit false

namespace GoldTrading

/-! ## List helpers (numpy mean / variance analogues) -/

/-- Arithmetic mean of a list of rationals; `0` on the empty list. -/
def listMean (l : List ℚ) : ℚ :=
  if l = [] then 0 else l.sum / l.length

/-- Population variance (`np.std(l)**2`, `ddof=0`); `0` on the empty list. -/
def popVariance (l : List ℚ) : ℚ :=
  if l = [] then 0 else ((l.map (fun x => (x - listMean l) ^ 2)).sum) / l.length

/-- Sample variance (`np.std(l, ddof=1)**2`); `0` when fewer than two points. -/
def sampleVariance (l : List ℚ) : ℚ :=
  if l.length < 2 then 0
  else ((l.map (fun x => (x - listMean l) ^ 2)).sum) / ((l.length : ℚ) - 1)

/-- Binary `max`, written so that the kernel can evaluate it. -/
def ratMax (a b : ℚ) : ℚ := if a ≤ b then b else a

/-- Binary `min`, written so that the kernel can evaluate it. -/
def ratMin (a b : ℚ) : ℚ := if a ≤ b then a else b

/-- Embeds `np.clip x lo hi`. -/
def clampQ (lo hi x : ℚ) : ℚ := ratMin hi (ratMax lo x)

/-- Python's `abs`, written so that the kernel can evaluate it. -/
def ratAbs (q : ℚ) : ℚ := if q < 0 then -q else q

/--
`np.std l > c` (for `c ≥ 0` and nonempty `l`) is equivalent to
`popVariance l > c²` since the standard deviation is the nonnegative square
root of the variance.  `np.std []` is NaN and `NaN > c` is false, which the
empty-list branch mirrors.
-/
def stdExceeds (l : List ℚ) (c : ℚ) : Bool :=
  !l.isEmpty && decide (popVariance l > c ^ 2)

/-! ## Risk Management Agent (`risk_management_agent.py`) -/

/-- Constructor parameters of `RiskManagementAgent.__init__`. -/
structure RiskConfig where
  maxRiskPerTradePct : ℚ
  maxPortfolioDrawdownPct : ℚ
  maxConcurrentTrades : ℕ
  maxDailyTrades : ℕ
  dailyLossLimitPct : ℚ
  minRiskReward : ℚ
deriving DecidableEq

/-- The defaults of `RiskManagementAgent.__init__`. -/
def defaultRiskConfig : RiskConfig :=
  { maxRiskPerTradePct := 1
    maxPortfolioDrawdownPct := 8
    maxConcurrentTrades := 1
    maxDailyTrades := 3
    dailyLossLimitPct := 3
    minRiskReward := 3/2 }

/--
Mutable account state of `RiskManagementAgent`: `account_balance` is the
initial balance fixed at construction; `current_balance`/`peak_balance` move
with `update_balance`; the daily maps are projected to today's entries,
the only entries `_check_constraints` reads.
-/
structure RiskState where
  accountBalance : ℚ
  currentBalance : ℚ
  peakBalance : ℚ
  openPositions : ℕ
  dailyTradesToday : ℕ
  dailyPnlToday : ℚ
deriving DecidableEq

/-- One constructor per distinct rejection-reason message in the source. -/
inductive RejectReason where
  | noSignalNeutral
  | maxDrawdownExceeded
  | maxConcurrentTrades
  | dailyTradeLimit
  | dailyLossLimit
  | invalidStopLoss
  | invalidTakeProfit
  | poorRiskReward
deriving DecidableEq

/-- One constructor per distinct warning message in the source. -/
inductive RiskWarning where
  | highDrawdown
  | verySmallPosition
  | positionCapped
deriving DecidableEq

/-- Embeds `RiskManagementAgent._calculate_current_drawdown`. -/
def calculateCurrentDrawdown (st : RiskState) : ℚ :=
  if st.peakBalance = 0 then 0
  else ratMax 0 ((st.peakBalance - st.currentBalance) / st.peakBalance * 100)

/--
`RiskManagementAgent._check_constraints`: drawdown, concurrent-trade,
daily-trade and daily-loss checks, gathering all violated reasons.  Note the
daily-loss percentage divides `abs(daily_pnl[today])` by the *initial*
`account_balance`.
-/
def checkConstraints (cfg : RiskConfig) (st : RiskState) :
    List RejectReason × List RiskWarning :=
  let dd := calculateCurrentDrawdown st
  let r1 : List RejectReason :=
    if dd ≥ cfg.maxPortfolioDrawdownPct then [.maxDrawdownExceeded] else []
  let w1 : List RiskWarning :=
    if dd ≥ cfg.maxPortfolioDrawdownPct then []
    else if dd ≥ cfg.maxPortfolioDrawdownPct * (8/10) then [.highDrawdown]
    else []
  let r2 : List RejectReason :=
    if st.openPositions ≥ cfg.maxConcurrentTrades then [.maxConcurrentTrades] else []
  let r3 : List RejectReason :=
    if st.dailyTradesToday ≥ cfg.maxDailyTrades then [.dailyTradeLimit] else []
  let dailyLossPct := ratAbs st.dailyPnlToday / st.accountBalance * 100
  let r4 : List RejectReason :=
    if dailyLossPct ≥ cfg.dailyLossLimitPct then [.dailyLossLimit] else []
  (r1 ++ r2 ++ r3 ++ r4, w1)

/-- Embeds the `RiskAssessment` dataclass. -/
structure RiskAssessment where
  approved : Bool
  positionSize : ℚ
  riskAmount : ℚ
  stopLossPrice : ℚ
  takeProfitPrice : ℚ
  riskRewardRatio : ℚ
  rejectionReasons : List RejectReason
  warnings : List RiskWarning
deriving DecidableEq

/-- Embeds `RiskManagementAgent._calculate_position_size`. -/
def calculatePositionSize (cfg : RiskConfig) (st : RiskState)
    (currentPrice stopLoss takeProfit : ℚ) (signalDirection : ℤ) :
    RiskAssessment :=
  let riskAmount := st.currentBalance * (cfg.maxRiskPerTradePct / 100)
  let slDistance :=
    if signalDirection > 0 then currentPrice - stopLoss else stopLoss - currentPrice
  let tpDistance :=
    if signalDirection > 0 then takeProfit - currentPrice else currentPrice - takeProfit
  let rejectionReasons : List RejectReason :=
    (if slDistance ≤ 0 then [.invalidStopLoss] else []) ++
    (if tpDistance ≤ 0 then [.invalidTakeProfit] else [])
  if rejectionReasons ≠ [] then
    { approved := false
      positionSize := 0
      riskAmount := 0
      stopLossPrice := stopLoss
      takeProfitPrice := takeProfit
      riskRewardRatio := 0
      rejectionReasons := rejectionReasons
      warnings := [] }
  else
    let positionSize := riskAmount / slDistance
    let rrRatio := if slDistance > 0 then tpDistance / slDistance else 0
    let warnSmall : List RiskWarning :=
      if positionSize < 1/100 then [.verySmallPosition] else []
    let maxPositionValue := st.currentBalance * (1/10)
    let capped := positionSize * currentPrice > maxPositionValue
    let warnCap : List RiskWarning := if capped then [.positionCapped] else []
    let positionSizeFinal := if capped then maxPositionValue / currentPrice else positionSize
    { approved := true
      positionSize := positionSizeFinal
      riskAmount := riskAmount
      stopLossPrice := stopLoss
      takeProfitPrice := takeProfit
      riskRewardRatio := rrRatio
      rejectionReasons := []
      warnings := warnSmall ++ warnCap }

/-- The `signal`/`confidence` pair of an incoming `AgentOutput`. -/
structure SignalIn where
  signal : ℚ
  confidence : ℚ
deriving DecidableEq

/-- Embeds the `risk_decision` metadata value. -/
inductive RiskDecision where
  | approved
  | rejected
deriving DecidableEq

/-- The decision-relevant content of the risk agent's returned `AgentOutput`. -/
structure RiskOutput where
  decision : RiskDecision
  signal : ℚ
  confidence : ℚ
  positionSize : ℚ
  riskAmount : ℚ
  riskRewardRatio : ℚ
  rejectionReasons : List RejectReason
  warnings : List RiskWarning
deriving DecidableEq

/-- Embeds `RiskManagementAgent._reject_trade`: zero signal, fixed 0.9 confidence. -/
def rejectTrade (reasons : List RejectReason) (warnings : List RiskWarning) :
    RiskOutput :=
  { decision := .rejected
    signal := 0
    confidence := 9/10
    positionSize := 0
    riskAmount := 0
    riskRewardRatio := 0
    rejectionReasons := reasons
    warnings := warnings }

/--
`RiskManagementAgent._approve_trade`: the input confidence, times 0.9 when the
`warnings` argument (the constraint-check warnings passed by `analyze`) is
nonempty, times 0.95 when the risk/reward ratio is below 2.
-/
def approveTrade (sig : SignalIn) (a : RiskAssessment)
    (warnings : List RiskWarning) : RiskOutput :=
  let conf1 := if warnings ≠ [] then sig.confidence * (9/10) else sig.confidence
  let conf2 := if a.riskRewardRatio < 2 then conf1 * (95/100) else conf1
  { decision := .approved
    signal := sig.signal
    confidence := conf2
    positionSize := a.positionSize
    riskAmount := a.riskAmount
    riskRewardRatio := a.riskRewardRatio
    rejectionReasons := []
    warnings := warnings }

/-- Embeds `RiskManagementAgent.analyze`; `current_price` is the last bar close. -/
def riskAnalyze (cfg : RiskConfig) (st : RiskState) (currentPrice : ℚ)
    (sig : SignalIn) (stopLoss takeProfit : ℚ) : RiskOutput :=
  if ratAbs sig.signal < 1/10 then
    rejectTrade [.noSignalNeutral] []
  else
    let cs := checkConstraints cfg st
    if cs.1 ≠ [] then rejectTrade cs.1 cs.2
    else
      let assessment :=
        calculatePositionSize cfg st currentPrice stopLoss takeProfit
          (if sig.signal > 0 then 1 else -1)
      let rrReasons : List RejectReason :=
        if assessment.riskRewardRatio < cfg.minRiskReward then [.poorRiskReward] else []
      if rrReasons ≠ [] ∨ assessment.approved = false then
        rejectTrade (rrReasons ++ assessment.rejectionReasons)
          (cs.2 ++ assessment.warnings)
      else
        approveTrade sig assessment cs.2

/-! ## Meta-Agent Orchestrator (`meta_agent.py`) -/

/-- Configurable thresholds of `MetaAgentOrchestrator.__init__`. -/
structure MetaConfig where
  minTechnicalConfidence : ℚ
  mlFilterVetoThreshold : ℚ
deriving DecidableEq

/-- The defaults of `MetaAgentOrchestrator.__init__`. -/
def defaultMetaConfig : MetaConfig :=
  { minTechnicalConfidence := 1/2, mlFilterVetoThreshold := 2/5 }

/-- The fixed `self.weights['technical']`. -/
def wTechnical : ℚ := 1/2

/-- The fixed `self.weights['ml_filter']`. -/
def wMlFilter : ℚ := 1/5

/-- The fixed `self.weights['risk']`. -/
def wRisk : ℚ := 3/10

/-- Decision-relevant content of the technical agent's output: its signal,
confidence, and the `stop_loss`/`take_profit` metadata read by `get_decision`
(with the `metadata.get(..., 0.0)` default already applied). -/
structure TechOutput where
  signal : ℚ
  confidence : ℚ
  stopLoss : ℚ
  takeProfit : ℚ
deriving DecidableEq

/-- Embeds the `filter_decision` metadata of the ML filter output
(`metadata.get('filter_decision', 'UNKNOWN')`). -/
inductive FilterDecision where
  | approve
  | reject
  | unknown
deriving DecidableEq

/-- Decision-relevant content of the ML filter's output. -/
structure MLOutput where
  signal : ℚ
  confidence : ℚ
  filterDecision : FilterDecision
deriving DecidableEq

/-- Veto reasons recorded by `get_decision`, one per message site; risk-agent
rejection reasons are carried through by `riskReason`. -/
inductive VetoReason where
  | lowTechnicalConfidence
  | noClearTechnicalSignal
  | mlFilterRejected
  | riskReason (r : RejectReason)
  | weakFinalSignal
deriving DecidableEq

/-- Embeds the `BUY` / `SELL` / `HOLD` action strings. -/
inductive Action where
  | buy
  | sell
  | hold
deriving DecidableEq

/-- Embeds the `MetaDecision` dataclass. -/
structure MetaDecision where
  finalSignal : ℚ
  finalConfidence : ℚ
  action : Action
  positionSize : ℚ
  stopLoss : ℚ
  takeProfit : ℚ
  vetoReasons : List VetoReason
  warnings : List RiskWarning
deriving DecidableEq

/-- Embeds `MetaAgentOrchestrator._create_hold_decision`. -/
def holdDecision (veto : List VetoReason) (warnings : List RiskWarning) :
    MetaDecision :=
  { finalSignal := 0
    finalConfidence := 0
    action := .hold
    positionSize := 0
    stopLoss := 0
    takeProfit := 0
    vetoReasons := veto
    warnings := warnings }

/-- Embeds `MetaAgentOrchestrator._calculate_weighted_signal`. -/
def weightedSignal (t m r : ℚ) : ℚ :=
  clampQ (-1) 1 (t * wTechnical + m * wMlFilter + r * wRisk)

/-- Embeds `MetaAgentOrchestrator._calculate_weighted_confidence`: the weighted mean
confidence, with a 0.8 penalty when the standard deviation of the stage
signals of magnitude above 0.1 exceeds 0.5 (`stdExceeds _ (1/2)`), clipped
to `[0, 1]`. -/
def weightedConfidence (tc mc rc : ℚ) (signals : List ℚ) : ℚ :=
  let w := tc * wTechnical + mc * wMlFilter + rc * wRisk
  let wPenalized :=
    if stdExceeds (signals.filter (fun s => ratAbs s > 1/10)) (1/2) then w * (8/10) else w
  clampQ 0 1 wPenalized

/-- The risk stage of `get_decision`: `risk_agent.analyze` applied to the ML
output's signal/confidence and the technical metadata's SL/TP. -/
def riskStageOut (rcfg : RiskConfig) (st : RiskState) (currentPrice : ℚ)
    (tech : TechOutput) (ml : MLOutput) : RiskOutput :=
  riskAnalyze rcfg st currentPrice ⟨ml.signal, ml.confidence⟩
    tech.stopLoss tech.takeProfit

/--
`MetaAgentOrchestrator.get_decision`, given the technical and ML stage
outputs (the sub-agents themselves are out of scope; `get_decision` consumes
only the fields modelled here).
-/
def getDecision (mcfg : MetaConfig) (rcfg : RiskConfig) (st : RiskState)
    (currentPrice : ℚ) (tech : TechOutput) (ml : MLOutput) : MetaDecision :=
  if tech.confidence < mcfg.minTechnicalConfidence then
    holdDecision [.lowTechnicalConfidence] []
  else if ratAbs tech.signal < 1/10 then
    holdDecision [.noClearTechnicalSignal] []
  else if ml.filterDecision = .reject then
    holdDecision [.mlFilterRejected] []
  else
    let riskOut := riskStageOut rcfg st currentPrice tech ml
    let warnings := riskOut.warnings
    if riskOut.decision = .rejected then
      holdDecision (riskOut.rejectionReasons.map VetoReason.riskReason) warnings
    else
      let finalSignal := weightedSignal tech.signal ml.signal riskOut.signal
      let finalConfidence :=
        weightedConfidence tech.confidence ml.confidence riskOut.confidence
          [tech.signal, ml.signal, riskOut.signal]
      let actionVeto : Action × List VetoReason :=
        if finalSignal > 3/10 then (.buy, [])
        else if finalSignal < -(3/10) then (.sell, [])
        else (.hold, [.weakFinalSignal])
      { finalSignal := finalSignal
        finalConfidence := finalConfidence
        action := actionVeto.1
        positionSize := riskOut.positionSize
        stopLoss := tech.stopLoss
        takeProfit := tech.takeProfit
        vetoReasons := actionVeto.2
        warnings := warnings }

/-! ## Decision Agent (`decision_agent.py`) -/

/-- Embeds `AgentOutput` as consumed by `DecisionAgent.analyze`: `signal` may be
`None`. -/
structure AgentOut where
  signal : Option ℚ
  confidence : ℚ
deriving DecidableEq

/-- Embeds the `TradingDecision` enum. -/
inductive TradingDecision where
  | strongBuy
  | buy
  | hold
  | sell
  | strongSell
deriving DecidableEq

/-- The decision agent's returned output; `decision` is the
`metadata['decision']` entry, absent on the disabled/empty/no-valid-input
sentinel returns. -/
structure DecisionOutput where
  signal : ℚ
  confidence : ℚ
  decision : Option TradingDecision
deriving DecidableEq

/-- The validity filter of `DecisionAgent.analyze`:
`output.signal is not None and output.confidence > 0`. -/
def validOutput (o : AgentOut) : Bool :=
  o.signal.isSome && decide (o.confidence > 0)

/-- Embeds `DecisionAgent._aggregate_signals`. -/
def aggregateSignals (outs : List AgentOut) : ℚ × ℚ :=
  let totalWeight := (outs.map (fun o => o.confidence)).sum
  let weighted := (outs.map (fun o => o.signal.getD 0 * o.confidence)).sum
  let finalSignal := if totalWeight > 0 then weighted / totalWeight else 0
  let avgConfidence := (outs.map (fun o => o.confidence)).sum / (outs.length : ℚ)
  let signalVariance :=
    (outs.map (fun o => (o.signal.getD 0 - finalSignal) ^ 2)).sum / (outs.length : ℚ)
  let agreementFactor := ratMax (1/2) (1 - signalVariance)
  (finalSignal, avgConfidence * agreementFactor)

/-- Embeds `DecisionAgent._make_decision`. -/
def makeDecision (strongT mediumT signal confidence : ℚ) : TradingDecision :=
  if confidence ≥ strongT ∧ signal ≥ 1/2 then .strongBuy
  else if confidence ≥ strongT ∧ signal ≤ -(1/2) then .strongSell
  else if confidence ≥ mediumT ∧ signal ≥ 1/5 then .buy
  else if confidence ≥ mediumT ∧ signal ≤ -(1/5) then .sell
  else .hold

/-- Embeds `DecisionAgent.analyze`. -/
def decisionAnalyze (enabled : Bool) (strongT mediumT : ℚ)
    (outs : List AgentOut) : DecisionOutput :=
  if enabled = false then ⟨0, 0, none⟩
  else if outs = [] then ⟨0, 0, none⟩
  else
    let valid := outs.filter validOutput
    if valid = [] then ⟨0, 0, none⟩
    else
      let sc := aggregateSignals valid
      ⟨sc.1, sc.2, some (makeDecision strongT mediumT sc.1 sc.2)⟩

/-! ## Backtesting models (`backtesting/models.py`) -/

/-- Embeds the `TradeType` enum. -/
inductive TradeType where
  | buy
  | sell
deriving DecidableEq

/-- Embeds the `TradeStatus` enum. -/
inductive TradeStatus where
  | opened
  | closed
deriving DecidableEq

/-- Embeds the `Trade` model: timestamps as naturals, prices as exact rationals. -/
structure Trade where
  id : ℕ
  entryTime : ℕ
  entryPrice : ℚ
  tradeType : TradeType
  size : ℚ
  exitTime : Option ℕ
  exitPrice : Option ℚ
  status : TradeStatus
  stopLoss : Option ℚ
  takeProfit : Option ℚ
  commission : ℚ
deriving DecidableEq

/-- Embeds the `Trade.profit_loss` property: `0` while open or without an exit price;
otherwise the directional price move times size, minus commission. -/
def Trade.profitLoss (t : Trade) : ℚ :=
  match t.exitPrice with
  | none => 0
  | some ep =>
      if t.status = .opened then 0
      else
        (if t.tradeType = .buy then (ep - t.entryPrice) * t.size
         else (t.entryPrice - ep) * t.size) - t.commission

/-- Embeds the `Trade.profit_loss_pct` property. -/
def Trade.profitLossPct (t : Trade) : ℚ :=
  match t.exitPrice with
  | none => 0
  | some _ =>
      if t.status = .opened then 0
      else t.profitLoss / (t.entryPrice * t.size) * 100

/-! ## Backtest Engine (`backtesting/engine.py`) -/

/-- One OHLCV bar, reduced to the fields the engine reads (`datetime`,
`close`). -/
structure Bar where
  time : ℕ
  close : ℚ
deriving DecidableEq

/-- The `BaseStrategy` capability interface consumed by the engine. -/
structure Strategy where
  shouldEnter : List Bar → ℕ → Option TradeType
  shouldExit : List Bar → ℕ → ℚ → TradeType → Bool
  getStopLoss : ℚ → TradeType → Option ℚ
  getTakeProfit : ℚ → TradeType → Option ℚ

/-- Engine constructor parameters used by the trade lifecycle. -/
structure EngineConfig where
  initialCapital : ℚ
  commission : ℚ

/-- Mutable state of `BacktestEngine` during `run`. -/
structure EngineState where
  capital : ℚ
  trades : List Trade
  equityCurve : List ℚ
  currentTrade : Option Trade

/--
`BacktestEngine._check_exit`: stop-loss hit, take-profit hit, or the
strategy's exit predicate.  Python tests the levels with `if level:`, so a
level equal to `0.0` is treated like `None`.
-/
def checkExit (strat : Strategy) (bars : List Bar) (i : ℕ) (price : ℚ)
    (t : Trade) : Bool :=
  let slHit :=
    match t.stopLoss with
    | some sl =>
        decide (sl ≠ 0) &&
        (if t.tradeType = .buy then decide (price ≤ sl) else decide (price ≥ sl))
    | none => false
  let tpHit :=
    match t.takeProfit with
    | some tp =>
        decide (tp ≠ 0) &&
        (if t.tradeType = .buy then decide (price ≥ tp) else decide (price ≤ tp))
    | none => false
  slHit || tpHit || strat.shouldExit bars i t.entryPrice t.tradeType

/-- Embeds `BacktestEngine._open_trade`: id `len(trades) + 1`, entry at the current
bar's close, size 1, SL/TP supplied by the strategy. -/
def openTrade (cfg : EngineConfig) (strat : Strategy) (st : EngineState)
    (time : ℕ) (price : ℚ) (sig : TradeType) : EngineState :=
  let t : Trade :=
    { id := st.trades.length + 1
      entryTime := time
      entryPrice := price
      tradeType := sig
      size := 1
      exitTime := none
      exitPrice := none
      status := .opened
      stopLoss := strat.getStopLoss price sig
      takeProfit := strat.getTakeProfit price sig
      commission := cfg.commission }
  { st with currentTrade := some t }

/-- Embeds `BacktestEngine._close_trade`: stamp exit time/price, realize P&L into
capital, append to the closed-trade list. -/
def closeTrade (st : EngineState) (time : ℕ) (price : ℚ) : EngineState :=
  match st.currentTrade with
  | none => st
  | some t =>
      let tClosed := { t with exitTime := some time, exitPrice := some price,
                              status := .closed }
      { st with
          capital := st.capital + tClosed.profitLoss
          trades := st.trades ++ [tClosed]
          currentTrade := none }

/-- Embeds `BacktestEngine._update_equity`: realized capital plus floating P&L of
the open trade, appended once per bar. -/
def updateEquity (st : EngineState) (price : ℚ) : EngineState :=
  let floating :=
    match st.currentTrade with
    | some t =>
        if t.tradeType = .buy then (price - t.entryPrice) * t.size
        else (t.entryPrice - price) * t.size
    | none => 0
  { st with equityCurve := st.equityCurve ++ [st.capital + floating] }

/-- The body of the per-bar loop in `BacktestEngine.run`: exit check first,
then (if flat) the entry check, then the equity-curve append. -/
def processBar (cfg : EngineConfig) (strat : Strategy) (bars : List Bar)
    (st : EngineState) (i : ℕ) (bar : Bar) : EngineState :=
  let st1 :=
    match st.currentTrade with
    | some t =>
        if checkExit strat bars i bar.close t then closeTrade st bar.time bar.close
        else st
    | none => st
  let st2 :=
    match st1.currentTrade with
    | none =>
        match strat.shouldEnter bars i with
        | some sig => openTrade cfg strat st1 bar.time bar.close sig
        | none => st1
    | some _ => st1
  updateEquity st2 bar.close

/-- Embeds `BacktestEngine.run` up to metric computation: reset, iterate the bars
in order, then force-close any still-open trade at the last bar. -/
def runEngine (cfg : EngineConfig) (strat : Strategy) (bars : List Bar) :
    EngineState :=
  let init : EngineState :=
    { capital := cfg.initialCapital
      trades := []
      equityCurve := [cfg.initialCapital]
      currentTrade := none }
  let final :=
    (bars.enum).foldl (fun st ib => processBar cfg strat bars st ib.1 ib.2) init
  match final.currentTrade, bars.getLast? with
  | some _, some lastBar => closeTrade final lastBar.time lastBar.close
  | _, _ => final

/-! ## Performance Metrics (`backtesting/metrics.py`) -/

/-- Embeds `np.maximum.accumulate`. -/
def runningMax : List ℚ → List ℚ
  | [] => []
  | x :: xs => runningMaxAux x xs
where
  runningMaxAux (acc : ℚ) : List ℚ → List ℚ
    | [] => [acc]
    | y :: ys => acc :: runningMaxAux (ratMax acc y) ys

/-- Minimum of a list (`np.min`); `0` on the empty list. -/
def listMin : List ℚ → ℚ
  | [] => 0
  | x :: xs => xs.foldl ratMin x

/-- Embeds `PerformanceMetrics._calculate_max_drawdown`: running-maximum scan;
returns `(absolute drawdown, percent of initial capital)`. -/
def maxDrawdownCalc (equity : List ℚ) (initial : ℚ) : ℚ × ℚ :=
  if equity = [] then (0, 0)
  else
    let rm := runningMax equity
    let dd := (equity.zip rm).map (fun p => p.1 - p.2)
    let maxDD := ratAbs (listMin dd)
    (maxDD, if initial > 0 then maxDD / initial * 100 else 0)

/-- The annual risk-free rate default of `_calculate_sharpe_ratio`. -/
def riskFreeRate : ℚ := 0

/--
`PerformanceMetrics._calculate_sharpe_ratio`: `None` for an empty list,
fewer than two trades, or zero sample standard deviation; otherwise
`(mean − risk_free) / std × sqrt 252` with `std = np.std(returns, ddof=1)`.
-/
noncomputable def sharpeRatio (trades : List Trade) : Option ℝ :=
  if trades = [] then none
  else
    let returns := trades.map Trade.profitLossPct
    if returns.length < 2 then none
    else
      let std : ℝ := Real.sqrt ((sampleVariance returns : ℚ) : ℝ)
      if std = 0 then none
      else
        some ((((listMean returns : ℚ) : ℝ) - ((riskFreeRate : ℚ) : ℝ)) / std *
          Real.sqrt 252)

/-! ## Market Regime Detector (`backtesting/regime_detector.py`) -/

/-- Embeds the `MarketRegime` literal type. -/
inductive MarketRegime where
  | trendingUp
  | trendingDown
  | ranging
  | volatile
deriving DecidableEq

/-- The `trend_direction` string computed in `detect` from SMA20 vs SMA50. -/
inductive TrendDirection where
  | up
  | down
deriving DecidableEq

/-- Threshold parameters of `MarketRegimeDetector.__init__`. -/
structure DetectorConfig where
  trendingThreshold : ℚ
  strongTrendingThreshold : ℚ
  highVolatilityThreshold : ℚ
deriving DecidableEq

/-- The defaults of `MarketRegimeDetector.__init__`. -/
def defaultDetectorConfig : DetectorConfig :=
  { trendingThreshold := 25
    strongTrendingThreshold := 40
    highVolatilityThreshold := 2 }

/-- Embeds `MarketRegimeDetector._classify_regime`: priority order volatile,
strong trend, moderate trend, ranging; returns `(regime, confidence)`. -/
def classifyRegime (cfg : DetectorConfig) (adx volatility : ℚ)
    (dir : TrendDirection) : MarketRegime × ℚ :=
  if volatility > cfg.highVolatilityThreshold then
    (.volatile, ratMin (volatility / cfg.highVolatilityThreshold) 1)
  else if adx > cfg.strongTrendingThreshold then
    ((if dir = .up then .trendingUp else .trendingDown), ratMin (adx / 60) 1)
  else if adx > cfg.trendingThreshold then
    ((if dir = .up then .trendingUp else .trendingDown),
      (adx - cfg.trendingThreshold) /
        (cfg.strongTrendingThreshold - cfg.trendingThreshold))
  else
    (.ranging, 1 - adx / cfg.trendingThreshold)

/-! ## Concrete inputs for scenarios, witnesses and counterexamples -/

/-- The spec's sizing scenario account: fresh 10,000 balance, no open
positions, no trades or P&L today. -/
def scenarioState : RiskState :=
  { accountBalance := 10000
    currentBalance := 10000
    peakBalance := 10000
    openPositions := 0
    dailyTradesToday := 0
    dailyPnlToday := 0 }

/-- An account that realized +350 of same-day gains on an initial 10,000
balance. -/
def gainDayState : RiskState :=
  { accountBalance := 10000
    currentBalance := 10350
    peakBalance := 10350
    openPositions := 0
    dailyTradesToday := 1
    dailyPnlToday := 350 }

/-- Engine with 10,000 initial capital and zero commission. -/
def demoEngineCfg : EngineConfig := { initialCapital := 10000, commission := 0 }

/-- A strategy that always wants to be long and exits on every bar. -/
def demoStrategy : Strategy :=
  { shouldEnter := fun _ _ => some .buy
    shouldExit := fun _ _ _ _ => true
    getStopLoss := fun _ _ => none
    getTakeProfit := fun _ _ => none }

/-- Two bars at times 0 and 1. -/
def demoBars : List Bar := [⟨0, 100⟩, ⟨1, 110⟩]

/-- A trade open since bar 0 at price 100, as `demoStrategy` would create. -/
def demoOpenTrade : Trade :=
  { id := 1
    entryTime := 0
    entryPrice := 100
    tradeType := .buy
    size := 1
    exitTime := none
    exitPrice := none
    status := .opened
    stopLoss := none
    takeProfit := none
    commission := 0 }

/-- Engine state holding `demoOpenTrade` just before bar 1. -/
def demoMidState : EngineState :=
  { capital := 10000
    trades := []
    equityCurve := [10000, 10000]
    currentTrade := some demoOpenTrade }

/-- A technical stage output: long signal 0.8, confidence 0.8, SL 1980,
TP 2040. -/
def demoTech : TechOutput :=
  { signal := 4/5, confidence := 4/5, stopLoss := 1980, takeProfit := 2040 }

/-- An ML filter stage output approving the signal. -/
def demoML : MLOutput :=
  { signal := 4/5, confidence := 7/10, filterDecision := .approve }

/-- A meta configuration with a loosened (lower) technical-confidence
threshold. -/
def looseMetaConfig : MetaConfig :=
  { minTechnicalConfidence := 2/5, mlFilterVetoThreshold := 2/5 }

/-- A risk configuration with a loosened (higher) drawdown cap and a
loosened (lower) risk/reward floor. -/
def looseRiskConfig : RiskConfig :=
  { maxRiskPerTradePct := 1
    maxPortfolioDrawdownPct := 10
    maxConcurrentTrades := 1
    maxDailyTrades := 3
    dailyLossLimitPct := 3
    minRiskReward := 1 }

/-- A closed long trade: 100 → 110, size 1, no commission. -/
def demoWinTrade : Trade :=
  { id := 1
    entryTime := 0
    entryPrice := 100
    tradeType := .buy
    size := 1
    exitTime := some 1
    exitPrice := some 110
    status := .closed
    stopLoss := none
    takeProfit := none
    commission := 0 }

/-- A closed long trade: 100 → 90, size 1, no commission. -/
def demoLossTrade : Trade :=
  { id := 2
    entryTime := 2
    entryPrice := 100
    tradeType := .buy
    size := 1
    exitTime := some 3
    exitPrice := some 90
    status := .closed
    stopLoss := none
    takeProfit := none
    commission := 0 }

/-- Two closed trades with distinct return percentages (+10%, −10%). -/
def demoTrades : List Trade := [demoWinTrade, demoLossTrade]

/-- The first trade the demo run records: opened on bar 0 at 100, exited on
bar 1 at 110 by the strategy's exit predicate. -/
def sameBarTradeA : Trade :=
  { id := 1
    entryTime := 0
    entryPrice := 100
    tradeType := .buy
    size := 1
    exitTime := some 1
    exitPrice := some 110
    status := .closed
    stopLoss := none
    takeProfit := none
    commission := 0 }

/-- The second trade the demo run records: opened on bar 1 — the same bar
that closed the first trade — and force-closed at the end of the series. -/
def sameBarTradeB : Trade :=
  { id := 2
    entryTime := 1
    entryPrice := 110
    tradeType := .buy
    size := 1
    exitTime := some 1
    exitPrice := some 110
    status := .closed
    stopLoss := none
    takeProfit := none
    commission := 0 }

/-! # Theorems -/

/-! ## Arithmetic facts about the embedded helpers -/

theorem listMapSqSum_nonneg (l : List ℚ) (m : ℚ) :
    0 ≤ (l.map (fun x => (x - m) ^ 2)).sum := by
  induction l with
  | nil => simp
  | cons a t ih =>
      simp only [List.map_cons, List.sum_cons]
      have : (0 : ℚ) ≤ (a - m) ^ 2 := sq_nonneg _
      linarith

theorem sampleVariance_nonneg (l : List ℚ) : 0 ≤ sampleVariance l := by
  unfold sampleVariance
  split
  · exact le_refl 0
  · rename_i h
    have hlen : 2 ≤ l.length := Nat.le_of_not_lt h
    have hpos : (0 : ℚ) < (l.length : ℚ) - 1 := by
      have : (2 : ℚ) ≤ (l.length : ℚ) := by exact_mod_cast hlen
      linarith
    exact div_nonneg (listMapSqSum_nonneg l (listMean l)) (le_of_lt hpos)

theorem ratAbs_eq_abs (q : ℚ) : ratAbs q = |q| := by
  unfold ratAbs
  split_ifs with h
  · exact (abs_of_neg h).symm
  · exact (abs_of_nonneg (not_lt.mp h)).symm

theorem ratMax_eq_max (a b : ℚ) : ratMax a b = max a b := by
  simp [ratMax, max_def]

theorem ratMin_eq_min (a b : ℚ) : ratMin a b = min a b := by
  simp [ratMin, min_def]

theorem ratMin_eq_right {x y : ℚ} (h : y ≤ x) : ratMin x y = y := by
  unfold ratMin
  split_ifs with h2
  · exact le_antisymm h2 h
  · rfl

/-! ## C7: max-drawdown scenario -/

/-- C7: on the equity curve [10000, 10500, 10200, 10800, 9900] with initial
capital 10000, the running-maximum drawdown scan returns 900 absolute
(the 10800 → 9900 drop) and 9.0 percent of initial capital. -/
theorem maxDrawdown_scenario_c7 :
    maxDrawdownCalc [10000, 10500, 10200, 10800, 9900] 10000 = (900, 9) := by
  norm_num [maxDrawdownCalc, runningMax, runningMax.runningMaxAux, listMin,
    ratAbs, ratMin, ratMax]
  intro h
  simp at h

/-! ## C2: the position-sizing scenario -/

/-- C2 counterexample: with balance 10,000, risk 1%, entry 2000, SL 1980,
TP 2040, the returned position size is not 5.0 — the unconstrained size 5.0
has notional 10,000, ten times the 10%-of-balance cap, so the size is
shrunk. -/
theorem risk_sizing_c2_counterexample :
    (calculatePositionSize defaultRiskConfig scenarioState 2000 1980 2040 1).positionSize ≠ 5 := by
  norm_num [calculatePositionSize, defaultRiskConfig, scenarioState]

/-- C2 amended: the scenario yields an approved assessment with
`risk_amount = 100`, `risk_reward_ratio = 2.0`, but `position_size = 0.5`
(the 10%-of-balance notional cap, 1000 / 2000) together with a cap warning;
the full risk evaluation still approves the trade. -/
theorem risk_sizing_c2_amended :
    calculatePositionSize defaultRiskConfig scenarioState 2000 1980 2040 1 =
      { approved := true
        positionSize := 1/2
        riskAmount := 100
        stopLossPrice := 1980
        takeProfitPrice := 2040
        riskRewardRatio := 2
        rejectionReasons := []
        warnings := [.positionCapped] } ∧
    (riskAnalyze defaultRiskConfig scenarioState 2000 ⟨4/5, 4/5⟩ 1980 2040).decision = .approved := by
  constructor
  · norm_num [calculatePositionSize, defaultRiskConfig, scenarioState]
  · norm_num [riskAnalyze, checkConstraints, calculateCurrentDrawdown,
      calculatePositionSize, approveTrade, rejectTrade, ratAbs, ratMax,
      defaultRiskConfig, scenarioState]

/-! ## C4: confidence discounts on approval -/

/-- C4 counterexample: in the sizing scenario a warning is raised during the
evaluation (the position-cap warning), risk/reward is 2.0, yet the approved
output's confidence equals the input confidence 0.8 undiscounted — the
claimed 10% discount for "any warning" does not happen for sizing
warnings. -/
theorem risk_confidence_c4_counterexample :
    (riskAnalyze defaultRiskConfig scenarioState 2000 ⟨4/5, 4/5⟩ 1980 2040).confidence = 4/5 ∧
    (calculatePositionSize defaultRiskConfig scenarioState 2000 1980 2040 1).warnings ≠ [] ∧
    ¬ (riskAnalyze defaultRiskConfig scenarioState 2000 ⟨4/5, 4/5⟩ 1980 2040).confidence = (4/5 : ℚ) * (9/10) := by
  refine ⟨?_, ?_, ?_⟩ <;>
    norm_num [riskAnalyze, checkConstraints, calculateCurrentDrawdown,
      calculatePositionSize, approveTrade, rejectTrade, ratAbs, ratMax,
      defaultRiskConfig, scenarioState]

/-- C4 amended: for every approved risk evaluation, the output confidence is
the input confidence, discounted by 10% if a constraint-check warning (the
high-drawdown proximity warning) was raised, and by a further 5% if the
risk/reward ratio is below 2.0; warnings raised inside position sizing do
not discount the confidence. -/
theorem risk_confidence_c4 (cfg : RiskConfig) (st : RiskState) (price : ℚ)
    (sig : SignalIn) (sl tp : ℚ)
    (happ : (riskAnalyze cfg st price sig sl tp).decision = .approved) :
    (riskAnalyze cfg st price sig sl tp).confidence =
      (if (calculatePositionSize cfg st price sl tp
            (if sig.signal > 0 then 1 else -1)).riskRewardRatio < 2
       then (if (checkConstraints cfg st).2 ≠ []
             then sig.confidence * (9/10) else sig.confidence) * (95/100)
       else (if (checkConstraints cfg st).2 ≠ []
             then sig.confidence * (9/10) else sig.confidence)) := by
  simp only [riskAnalyze] at happ ⊢
  split_ifs at happ ⊢ <;>
    first
      | rfl
      | simp [rejectTrade] at happ
      | simp_all [approveTrade, rejectTrade]

/-- C4 witness: the amended discount formula evaluated on the approved
sizing scenario. -/
theorem risk_confidence_c4_witness :
    (riskAnalyze defaultRiskConfig scenarioState 2000 ⟨4/5, 4/5⟩ 1980 2040).confidence =
      (if (calculatePositionSize defaultRiskConfig scenarioState 2000 1980 2040
            (if (4/5 : ℚ) > 0 then 1 else -1)).riskRewardRatio < 2
       then (if (checkConstraints defaultRiskConfig scenarioState).2 ≠ []
             then (4/5 : ℚ) * (9/10) else 4/5) * (95/100)
       else (if (checkConstraints defaultRiskConfig scenarioState).2 ≠ []
             then (4/5 : ℚ) * (9/10) else 4/5)) :=
  risk_confidence_c4 defaultRiskConfig scenarioState 2000 ⟨4/5, 4/5⟩ 1980 2040
    (by norm_num [riskAnalyze, checkConstraints, calculateCurrentDrawdown,
      calculatePositionSize, approveTrade, rejectTrade, ratAbs, ratMax,
      defaultRiskConfig, scenarioState])

/-! ## C10: daily circuit breaker on absolute P&L over the initial balance -/

/-- C10: the daily circuit-breaker reason is raised exactly when the
absolute value of today's recorded P&L, as a percentage of the *initial*
account balance, reaches the daily loss limit; whenever that holds and the
signal clears the noise floor, the evaluation rejects the entry — so a day
of realized gains at or above the limit also blocks further entries. -/
theorem risk_daily_limit_c10 (cfg : RiskConfig) (st : RiskState) :
    (RejectReason.dailyLossLimit ∈ (checkConstraints cfg st).1 ↔
      ratAbs st.dailyPnlToday / st.accountBalance * 100 ≥ cfg.dailyLossLimitPct) ∧
    (∀ price : ℚ, ∀ sig : SignalIn, ∀ sl tp : ℚ,
      1/10 ≤ ratAbs sig.signal →
      ratAbs st.dailyPnlToday / st.accountBalance * 100 ≥ cfg.dailyLossLimitPct →
      (riskAnalyze cfg st price sig sl tp).decision = .rejected) := by
  have hiff : RejectReason.dailyLossLimit ∈ (checkConstraints cfg st).1 ↔
      ratAbs st.dailyPnlToday / st.accountBalance * 100 ≥ cfg.dailyLossLimitPct := by
    simp only [checkConstraints, List.mem_append]
    split_ifs <;> simp_all
  refine ⟨hiff, fun price sig sl tp hsig hlim => ?_⟩
  have hne : (checkConstraints cfg st).1 ≠ [] :=
    List.ne_nil_of_mem (hiff.mpr hlim)
  simp only [riskAnalyze]
  rw [if_neg (not_lt.mpr hsig), if_pos hne]
  rfl

/-- C10 witness: +350 of same-day gains on an initial 10,000 balance with
the default 3% limit blocks a fresh entry request. -/
theorem risk_daily_limit_c10_witness :
    RejectReason.dailyLossLimit ∈ (checkConstraints defaultRiskConfig gainDayState).1 ∧
    (riskAnalyze defaultRiskConfig gainDayState 2000 ⟨4/5, 4/5⟩ 1980 2040).decision = .rejected := by
  have h := risk_daily_limit_c10 defaultRiskConfig gainDayState
  constructor
  · exact h.1.mpr (by norm_num [ratAbs, gainDayState, defaultRiskConfig])
  · exact h.2 2000 ⟨4/5, 4/5⟩ 1980 2040 (by norm_num [ratAbs])
      (by norm_num [ratAbs, gainDayState, defaultRiskConfig])

/-! ## C9: confidence of volatile classifications -/

/-- C9 counterexample: two volatile classifications with strictly different
volatility excesses (4 vs 2.5 over the threshold 2) receive the same
confidence — the `min(vol/threshold, 1.0)` formula is capped to 1.0 on the
whole volatile branch, so confidence does not scale there. -/
theorem regime_volatile_conf_c9_counterexample :
    (classifyRegime defaultDetectorConfig 30 (5/2) .up).1 = .volatile ∧
    (classifyRegime defaultDetectorConfig 30 4 .up).1 = .volatile ∧
    defaultDetectorConfig.highVolatilityThreshold < 5/2 ∧ (5/2 : ℚ) < 4 ∧
    (classifyRegime defaultDetectorConfig 30 4 .up).2 =
      (classifyRegime defaultDetectorConfig 30 (5/2) .up).2 := by
  refine ⟨?_, ?_, ?_, ?_, ?_⟩ <;>
    norm_num [classifyRegime, defaultDetectorConfig, ratMin]

/-- C9 amended: whenever the detector classifies a window as volatile
(volatility strictly above a positive high-volatility threshold), the
reported confidence is constantly 1.0: the branch computes
`min(volatility / threshold, 1.0)` and the branch condition forces the
quotient above 1. -/
theorem regime_volatile_conf_c9 (cfg : DetectorConfig) (adx volatility : ℚ)
    (dir : TrendDirection)
    (hth : 0 < cfg.highVolatilityThreshold)
    (hvol : cfg.highVolatilityThreshold < volatility) :
    classifyRegime cfg adx volatility dir = (.volatile, 1) := by
  unfold classifyRegime
  rw [if_pos hvol]
  have h1 : (1 : ℚ) ≤ volatility / cfg.highVolatilityThreshold :=
    (one_le_div hth).mpr (le_of_lt hvol)
  rw [ratMin_eq_right h1]

/-- C9 amended witness: the default configuration at volatility 4 (excess 2
over the threshold) classifies volatile with confidence exactly 1. -/
theorem regime_volatile_conf_c9_witness :
    classifyRegime defaultDetectorConfig 30 4 .up = (.volatile, 1) :=
  regime_volatile_conf_c9 defaultDetectorConfig 30 4 .up
    (by norm_num [defaultDetectorConfig]) (by norm_num [defaultDetectorConfig])

/-! ## C6: decision-agent failure semantics -/

/-- C6: on an empty input list, or a list whose outputs are all invalid
(`signal is None` or `confidence ≤ 0`), the enabled decision agent returns
the neutral HOLD sentinel: signal 0, confidence 0, and no decision entry;
the embedding is a total function, so no exception is possible. -/
theorem decision_agent_neutral_c6 (strongT mediumT : ℚ) (outs : List AgentOut)
    (h : outs = [] ∨ ∀ o ∈ outs, o.signal = none ∨ o.confidence ≤ 0) :
    decisionAnalyze true strongT mediumT outs = ⟨0, 0, none⟩ := by
  rcases h with h | h
  · subst h
    simp [decisionAnalyze]
  · have hf : outs.filter validOutput = [] := by
      rw [List.filter_eq_nil_iff]
      intro a ha
      rcases h a ha with h1 | h1
      · simp [validOutput, h1]
      · simp only [validOutput, Bool.and_eq_true, decide_eq_true_eq, not_and]
        exact fun _ => not_lt.mpr h1
    by_cases ho : outs = []
    · subst ho
      simp [decisionAnalyze]
    · simp [decisionAnalyze, ho, hf]

/-- C6 witness: a list holding one signal-less output and one
zero-confidence output yields the neutral HOLD sentinel. -/
theorem decision_agent_neutral_c6_witness :
    decisionAnalyze true (7/10) (1/2) [⟨none, 1⟩, ⟨some 1, 0⟩] = ⟨0, 0, none⟩ :=
  decision_agent_neutral_c6 (7/10) (1/2) _
    (Or.inr (by
      intro o ho
      simp only [List.mem_cons, List.not_mem_nil, or_false] at ho
      rcases ho with rfl | rfl
      · exact Or.inl rfl
      · exact Or.inr le_rfl))

/-! ## C1: same-bar close and reopen in the backtest engine -/

/-- C1 counterexample: with a strategy that always signals entry and always
signals exit, bar 1 both closes trade 1 (exit time 1) and opens trade 2
(entry time 1) — after `_close_trade` clears `current_trade`, the entry
check runs on the very same bar. -/
theorem engine_same_bar_reopen_c1_counterexample :
    ¬ (∀ t1 ∈ (runEngine demoEngineCfg demoStrategy demoBars).trades,
       ∀ t2 ∈ (runEngine demoEngineCfg demoStrategy demoBars).trades,
       t1.id ≠ t2.id → t1.exitTime ≠ some t2.entryTime) := by
  have hev : (runEngine demoEngineCfg demoStrategy demoBars).trades =
      [sameBarTradeA, sameBarTradeB] := by
    norm_num [runEngine, processBar, checkExit, openTrade, closeTrade, updateEquity,
      Trade.profitLoss, demoEngineCfg, demoStrategy, demoBars, List.enum,
      List.enumFrom, List.foldl, sameBarTradeA, sameBarTradeB]
  intro hall
  have hne := hall sameBarTradeA (by rw [hev]; simp) sameBarTradeB
    (by rw [hev]; simp) (by norm_num [sameBarTradeA, sameBarTradeB])
  exact hne (by norm_num [sameBarTradeA, sameBarTradeB])

/-- C1 amended: on every bar, the exit of the open trade is evaluated (and
recorded) before a new entry is considered, but when the open trade exits on
bar i and the strategy signals entry at index i, the engine immediately
opens a new trade on that same bar: the closed trade is appended with exit
time equal to the bar's timestamp and the new trade's entry time equals the
same timestamp, with a strictly larger id. -/
theorem engine_exit_then_entry_c1 (cfg : EngineConfig) (strat : Strategy)
    (bars : List Bar) (st : EngineState) (i : ℕ) (bar : Bar) (t : Trade)
    (sig : TradeType)
    (hopen : st.currentTrade = some t)
    (hexit : checkExit strat bars i bar.close t = true)
    (henter : strat.shouldEnter bars i = some sig) :
    (processBar cfg strat bars st i bar).trades =
      st.trades ++
        [{ t with exitTime := some bar.time, exitPrice := some bar.close, status := .closed }] ∧
    (processBar cfg strat bars st i bar).currentTrade =
      some { id := st.trades.length + 2,
             entryTime := bar.time, entryPrice := bar.close, tradeType := sig,
             size := 1, exitTime := none, exitPrice := none, status := .opened,
             stopLoss := strat.getStopLoss bar.close sig,
             takeProfit := strat.getTakeProfit bar.close sig,
             commission := cfg.commission } := by
  simp [processBar, hopen, hexit, closeTrade, openTrade, updateEquity, henter]

/-- C1 amended witness: bar 1 of the demo run closes the open demo trade and
opens a fresh trade with entry time 1, the closing bar's timestamp. -/
theorem engine_exit_then_entry_c1_witness :
    (processBar demoEngineCfg demoStrategy demoBars demoMidState 1 ⟨1, 110⟩).trades =
      demoMidState.trades ++
        [{ demoOpenTrade with exitTime := some 1, exitPrice := some 110, status := .closed }] ∧
    (processBar demoEngineCfg demoStrategy demoBars demoMidState 1 ⟨1, 110⟩).currentTrade =
      some { id := demoMidState.trades.length + 2,
             entryTime := 1, entryPrice := 110, tradeType := .buy,
             size := 1, exitTime := none, exitPrice := none, status := .opened,
             stopLoss := demoStrategy.getStopLoss 110 .buy,
             takeProfit := demoStrategy.getTakeProfit 110 .buy,
             commission := demoEngineCfg.commission } :=
  engine_exit_then_entry_c1 demoEngineCfg demoStrategy demoBars demoMidState 1
    ⟨1, 110⟩ demoOpenTrade .buy rfl
    (by norm_num [checkExit, demoStrategy, demoOpenTrade]) rfl

/-! ## C8: Sharpe-ratio definedness and value -/

/-- C8: the Sharpe ratio is `None` exactly when there are fewer than two
trades or the trade-return percentages have zero (sample) variance; in every
other case it equals `(mean − risk_free) / stdev × sqrt 252` over the
trade-return percentages. -/
theorem sharpe_c8 (trades : List Trade) :
    (sharpeRatio trades = none ↔
      trades.length < 2 ∨ sampleVariance (trades.map Trade.profitLossPct) = 0) ∧
    (¬ (trades.length < 2 ∨ sampleVariance (trades.map Trade.profitLossPct) = 0) →
      sharpeRatio trades =
        some ((((listMean (trades.map Trade.profitLossPct) : ℚ) : ℝ) -
            ((riskFreeRate : ℚ) : ℝ)) /
          Real.sqrt ((sampleVariance (trades.map Trade.profitLossPct) : ℚ) : ℝ) *
          Real.sqrt 252)) := by
  have hvar : (0 : ℚ) ≤ sampleVariance (trades.map Trade.profitLossPct) :=
    sampleVariance_nonneg _
  have hlen : (trades.map Trade.profitLossPct).length = trades.length :=
    List.length_map _ _
  have hsqrt : Real.sqrt ((sampleVariance (trades.map Trade.profitLossPct) : ℚ) : ℝ) = 0 ↔
      sampleVariance (trades.map Trade.profitLossPct) = 0 := by
    rw [Real.sqrt_eq_zero']
    constructor
    · intro h
      have h0 : ((sampleVariance (trades.map Trade.profitLossPct) : ℚ) : ℝ) = 0 := by
        have hv : (0 : ℝ) ≤ ((sampleVariance (trades.map Trade.profitLossPct) : ℚ) : ℝ) := by
          exact_mod_cast hvar
        linarith
      exact_mod_cast h0
    · intro h
      exact_mod_cast le_of_eq h
  by_cases h0 : trades = []
  · subst h0
    simp [sharpeRatio, sampleVariance]
  · by_cases h1 : trades.length < 2
    · constructor
      · simp only [sharpeRatio, if_neg h0, hlen, if_pos h1]
        simp [h1]
      · intro h
        exact absurd (Or.inl h1) h
    · by_cases h2 : sampleVariance (trades.map Trade.profitLossPct) = 0
      · constructor
        · simp only [sharpeRatio, if_neg h0, hlen, if_neg h1]
          rw [if_pos (hsqrt.mpr h2)]
          simp [h2]
        · intro h
          exact absurd (Or.inr h2) h
      · constructor
        · simp only [sharpeRatio, if_neg h0, hlen, if_neg h1]
          rw [if_neg (fun hc => h2 (hsqrt.mp hc))]
          simp [h1, h2]
        · intro _
          simp only [sharpeRatio, if_neg h0, hlen, if_neg h1]
          rw [if_neg (fun hc => h2 (hsqrt.mp hc))]

/-- C8 witness: two closed trades returning +10% and −10% have sample
variance 200 ≠ 0, so the Sharpe ratio is defined and equals the annualized
mean-over-stdev formula. -/
theorem sharpe_c8_witness :
    sharpeRatio demoTrades =
      some ((((listMean (demoTrades.map Trade.profitLossPct) : ℚ) : ℝ) -
          ((riskFreeRate : ℚ) : ℝ)) /
        Real.sqrt ((sampleVariance (demoTrades.map Trade.profitLossPct) : ℚ) : ℝ) *
        Real.sqrt 252) :=
  (sharpe_c8 demoTrades).2 (by
    have hco : TradeStatus.closed ≠ TradeStatus.opened := by decide
    norm_num [demoTrades, demoWinTrade, demoLossTrade, Trade.profitLossPct,
      Trade.profitLoss, sampleVariance, listMean, hco])

/-! ## C3: weighted meta decision when all stages pass -/

/-- C3: whenever the technical-confidence gate, the technical-signal gate,
the ML filter, and the risk stage all pass, the final signal is the
0.50/0.20/0.30 combination of the stage signals clipped to [-1, 1]; BUY iff
above 0.3, SELL iff below −0.3, otherwise HOLD with a weak-final-signal veto
reason; and the final confidence is the same weighted combination of the
stage confidences, times 0.8 when the standard deviation of the stage
signals of magnitude above 0.1 exceeds 0.5, clipped to [0, 1]. -/
theorem meta_weighting_c3 (mcfg : MetaConfig) (rcfg : RiskConfig)
    (st : RiskState) (price : ℚ) (tech : TechOutput) (ml : MLOutput)
    (h1 : mcfg.minTechnicalConfidence ≤ tech.confidence)
    (h2 : 1/10 ≤ ratAbs tech.signal)
    (h3 : ml.filterDecision ≠ .reject)
    (h4 : (riskStageOut rcfg st price tech ml).decision = .approved) :
    (getDecision mcfg rcfg st price tech ml).finalSignal =
      clampQ (-1) 1 (tech.signal * wTechnical + ml.signal * wMlFilter +
        (riskStageOut rcfg st price tech ml).signal * wRisk) ∧
    (getDecision mcfg rcfg st price tech ml).finalConfidence =
      clampQ 0 1
        (if stdExceeds ([tech.signal, ml.signal,
              (riskStageOut rcfg st price tech ml).signal].filter
              (fun s => ratAbs s > 1/10)) (1/2)
         then (tech.confidence * wTechnical + ml.confidence * wMlFilter +
            (riskStageOut rcfg st price tech ml).confidence * wRisk) * (8/10)
         else tech.confidence * wTechnical + ml.confidence * wMlFilter +
            (riskStageOut rcfg st price tech ml).confidence * wRisk) ∧
    ((getDecision mcfg rcfg st price tech ml).action = .buy ↔
      (getDecision mcfg rcfg st price tech ml).finalSignal > 3/10) ∧
    ((getDecision mcfg rcfg st price tech ml).action = .sell ↔
      (getDecision mcfg rcfg st price tech ml).finalSignal < -(3/10)) ∧
    ((getDecision mcfg rcfg st price tech ml).action = .hold ↔
      ¬ (getDecision mcfg rcfg st price tech ml).finalSignal > 3/10 ∧
      ¬ (getDecision mcfg rcfg st price tech ml).finalSignal < -(3/10)) ∧
    ((getDecision mcfg rcfg st price tech ml).action = .hold →
      VetoReason.weakFinalSignal ∈ (getDecision mcfg rcfg st price tech ml).vetoReasons) := by
  have hrisk : ¬ ((riskStageOut rcfg st price tech ml).decision = .rejected) := by
    rw [h4]
    intro hcon
    cases hcon
  simp only [getDecision, if_neg (not_lt.mpr h1), if_neg (not_lt.mpr h2),
    if_neg h3, if_neg hrisk, weightedSignal, weightedConfidence]
  refine ⟨by trivial, by trivial, ?_, ?_, ?_, ?_⟩ <;>
    split_ifs <;> (simp_all; try linarith)

/-- C3 witness: the all-pass demo pipeline (technical 0.8/0.8, ML approve
0.8/0.7, risk approved on the sizing scenario) satisfies the full weighted
formula and action mapping. -/
theorem meta_weighting_c3_witness :
    (getDecision defaultMetaConfig defaultRiskConfig scenarioState 2000 demoTech demoML).finalSignal =
      clampQ (-1) 1 (demoTech.signal * wTechnical + demoML.signal * wMlFilter +
        (riskStageOut defaultRiskConfig scenarioState 2000 demoTech demoML).signal * wRisk) ∧
    ((getDecision defaultMetaConfig defaultRiskConfig scenarioState 2000 demoTech demoML).action = .buy ↔
      (getDecision defaultMetaConfig defaultRiskConfig scenarioState 2000 demoTech demoML).finalSignal > 3/10) := by
  have h := meta_weighting_c3 defaultMetaConfig defaultRiskConfig scenarioState
    2000 demoTech demoML
    (by norm_num [defaultMetaConfig, demoTech])
    (by norm_num [ratAbs, demoTech])
    (by simp [demoML])
    (by norm_num [riskStageOut, riskAnalyze, checkConstraints,
      calculateCurrentDrawdown, calculatePositionSize, approveTrade, rejectTrade,
      ratAbs, ratMax, defaultRiskConfig, scenarioState, demoTech, demoML])
  exact ⟨h.1, h.2.2.1⟩

/-! ## C5: monotonicity of the veto cascade in its thresholds -/

theorem riskAnalyze_approved_spec (cfg : RiskConfig) (st : RiskState)
    (price : ℚ) (sig : SignalIn) (sl tp : ℚ) :
    (riskAnalyze cfg st price sig sl tp).decision = .approved ↔
      ¬ (ratAbs sig.signal < 1/10) ∧ (checkConstraints cfg st).1 = [] ∧
      ¬ ((calculatePositionSize cfg st price sl tp
            (if sig.signal > 0 then 1 else -1)).riskRewardRatio < cfg.minRiskReward) ∧
      (calculatePositionSize cfg st price sl tp
          (if sig.signal > 0 then 1 else -1)).approved = true := by
  simp only [riskAnalyze]
  split_ifs <;> simp_all [rejectTrade, approveTrade]

theorem riskAnalyze_approved_eq (cfg : RiskConfig) (st : RiskState)
    (price : ℚ) (sig : SignalIn) (sl tp : ℚ)
    (h : (riskAnalyze cfg st price sig sl tp).decision = .approved) :
    riskAnalyze cfg st price sig sl tp =
      approveTrade sig
        (calculatePositionSize cfg st price sl tp (if sig.signal > 0 then 1 else -1))
        (checkConstraints cfg st).2 := by
  obtain ⟨h1, h2, h3, h4⟩ := (riskAnalyze_approved_spec cfg st price sig sl tp).mp h
  simp only [riskAnalyze]
  rw [if_neg h1]
  rw [if_neg (show ¬ (checkConstraints cfg st).1 ≠ [] by simp [h2])]
  rw [if_neg (show ¬ _ by simp [if_neg h3, h4])]

theorem checkConstraints_nil_mono (cfg cfg' : RiskConfig) (st : RiskState)
    (hd : cfg.maxPortfolioDrawdownPct ≤ cfg'.maxPortfolioDrawdownPct)
    (he2 : cfg'.maxConcurrentTrades = cfg.maxConcurrentTrades)
    (he3 : cfg'.maxDailyTrades = cfg.maxDailyTrades)
    (he4 : cfg'.dailyLossLimitPct = cfg.dailyLossLimitPct)
    (h : (checkConstraints cfg st).1 = []) :
    (checkConstraints cfg' st).1 = [] := by
  simp only [checkConstraints] at h ⊢
  rw [he2, he3, he4]
  split_ifs at h ⊢ <;> (simp_all; try linarith)

theorem calculatePositionSize_config_irrel (cfg cfg' : RiskConfig)
    (st : RiskState) (price sl tp : ℚ) (dir : ℤ)
    (h : cfg'.maxRiskPerTradePct = cfg.maxRiskPerTradePct) :
    calculatePositionSize cfg' st price sl tp dir =
      calculatePositionSize cfg st price sl tp dir := by
  simp only [calculatePositionSize, h]

/-- C5: the veto cascade is monotone in its thresholds: for a fixed input
(stage outputs, account state, price), if the pipeline produces a non-HOLD
(approved BUY/SELL) decision under minimum technical confidence `t`, maximum
drawdown `d` and minimum risk/reward `r`, then under any configuration with
`t' ≤ t`, `d' ≥ d`, `r' ≤ r` (all other parameters equal) it produces the
same non-HOLD action. -/
theorem veto_monotone_c5 (mcfg mcfg' : MetaConfig) (rcfg rcfg' : RiskConfig)
    (st : RiskState) (price : ℚ) (tech : TechOutput) (ml : MLOutput)
    (ht : mcfg'.minTechnicalConfidence ≤ mcfg.minTechnicalConfidence)
    (hd : rcfg.maxPortfolioDrawdownPct ≤ rcfg'.maxPortfolioDrawdownPct)
    (hr : rcfg'.minRiskReward ≤ rcfg.minRiskReward)
    (he1 : rcfg'.maxRiskPerTradePct = rcfg.maxRiskPerTradePct)
    (he2 : rcfg'.maxConcurrentTrades = rcfg.maxConcurrentTrades)
    (he3 : rcfg'.maxDailyTrades = rcfg.maxDailyTrades)
    (he4 : rcfg'.dailyLossLimitPct = rcfg.dailyLossLimitPct)
    (happr : (getDecision mcfg rcfg st price tech ml).action ≠ .hold) :
    (getDecision mcfg' rcfg' st price tech ml).action =
      (getDecision mcfg rcfg st price tech ml).action ∧
    (getDecision mcfg' rcfg' st price tech ml).action ≠ .hold := by
  by_cases g1 : tech.confidence < mcfg.minTechnicalConfidence
  · exact absurd (show (getDecision mcfg rcfg st price tech ml).action = .hold by
      simp only [getDecision]
      rw [if_pos g1]
      rfl) happr
  by_cases g2 : ratAbs tech.signal < 1/10
  · exact absurd (show (getDecision mcfg rcfg st price tech ml).action = .hold by
      simp only [getDecision]
      rw [if_neg g1, if_pos g2]
      rfl) happr
  by_cases g3 : ml.filterDecision = .reject
  · exact absurd (show (getDecision mcfg rcfg st price tech ml).action = .hold by
      simp only [getDecision]
      rw [if_neg g1, if_neg g2, if_pos g3]
      rfl) happr
  by_cases g4 : (riskStageOut rcfg st price tech ml).decision = .rejected
  · exact absurd (show (getDecision mcfg rcfg st price tech ml).action = .hold by
      simp only [getDecision]
      rw [if_neg g1, if_neg g2, if_neg g3, if_pos g4]
      rfl) happr
  have happroved : (riskAnalyze rcfg st price ⟨ml.signal, ml.confidence⟩
      tech.stopLoss tech.takeProfit).decision = .approved := by
    cases hdec : (riskStageOut rcfg st price tech ml).decision
    case approved => exact hdec
    case rejected => exact absurd hdec g4
  obtain ⟨h1, h2, h3, h4⟩ :=
    (riskAnalyze_approved_spec rcfg st price ⟨ml.signal, ml.confidence⟩
      tech.stopLoss tech.takeProfit).mp happroved
  have hcalc : calculatePositionSize rcfg' st price tech.stopLoss tech.takeProfit
      (if ml.signal > 0 then 1 else -1) =
      calculatePositionSize rcfg st price tech.stopLoss tech.takeProfit
        (if ml.signal > 0 then 1 else -1) :=
    calculatePositionSize_config_irrel rcfg rcfg' st price tech.stopLoss
      tech.takeProfit _ he1
  have happroved' : (riskAnalyze rcfg' st price ⟨ml.signal, ml.confidence⟩
      tech.stopLoss tech.takeProfit).decision = .approved := by
    apply (riskAnalyze_approved_spec rcfg' st price ⟨ml.signal, ml.confidence⟩
      tech.stopLoss tech.takeProfit).mpr
    refine ⟨h1, checkConstraints_nil_mono rcfg rcfg' st hd he2 he3 he4 h2, ?_, ?_⟩
    · show ¬ ((calculatePositionSize rcfg' st price tech.stopLoss tech.takeProfit
        (if ml.signal > 0 then 1 else -1)).riskRewardRatio < rcfg'.minRiskReward)
      rw [hcalc]
      exact not_lt.mpr (le_trans hr (not_lt.mp h3))
    · show (calculatePositionSize rcfg' st price tech.stopLoss tech.takeProfit
        (if ml.signal > 0 then 1 else -1)).approved = true
      rw [hcalc]
      exact h4
  have hsig : (riskStageOut rcfg st price tech ml).signal = ml.signal := by
    show (riskAnalyze rcfg st price ⟨ml.signal, ml.confidence⟩
      tech.stopLoss tech.takeProfit).signal = ml.signal
    rw [riskAnalyze_approved_eq rcfg st price ⟨ml.signal, ml.confidence⟩
      tech.stopLoss tech.takeProfit happroved]
    simp [approveTrade]
  have hsig' : (riskStageOut rcfg' st price tech ml).signal = ml.signal := by
    show (riskAnalyze rcfg' st price ⟨ml.signal, ml.confidence⟩
      tech.stopLoss tech.takeProfit).signal = ml.signal
    rw [riskAnalyze_approved_eq rcfg' st price ⟨ml.signal, ml.confidence⟩
      tech.stopLoss tech.takeProfit happroved']
    simp [approveTrade]
  have g1' : ¬ (tech.confidence < mcfg'.minTechnicalConfidence) :=
    not_lt.mpr (le_trans ht (not_lt.mp g1))
  have g4' : ¬ ((riskStageOut rcfg' st price tech ml).decision = .rejected) := by
    show ¬ ((riskAnalyze rcfg' st price ⟨ml.signal, ml.confidence⟩
      tech.stopLoss tech.takeProfit).decision = .rejected)
    rw [happroved']
    intro hcon
    cases hcon
  have hact : (getDecision mcfg' rcfg' st price tech ml).action =
      (getDecision mcfg rcfg st price tech ml).action := by
    simp only [getDecision, if_neg g1, if_neg g1', if_neg g2, if_neg g3,
      if_neg g4, if_neg g4']
    rw [hsig, hsig']
  exact ⟨hact, hact ▸ happr⟩

/-- C5 witness: the default configuration approves a BUY on the demo input;
the loosened configuration (lower min confidence 0.4, higher drawdown cap
10%, lower min risk/reward 1.0) yields the same non-HOLD action. -/
theorem veto_monotone_c5_witness :
    (getDecision looseMetaConfig looseRiskConfig scenarioState 2000 demoTech demoML).action =
      (getDecision defaultMetaConfig defaultRiskConfig scenarioState 2000 demoTech demoML).action ∧
    (getDecision looseMetaConfig looseRiskConfig scenarioState 2000 demoTech demoML).action ≠ .hold :=
  veto_monotone_c5 defaultMetaConfig looseMetaConfig defaultRiskConfig
    looseRiskConfig scenarioState 2000 demoTech demoML
    (by norm_num [defaultMetaConfig, looseMetaConfig])
    (by norm_num [defaultRiskConfig, looseRiskConfig])
    (by norm_num [defaultRiskConfig, looseRiskConfig])
    (by norm_num [defaultRiskConfig, looseRiskConfig])
    (by norm_num [defaultRiskConfig, looseRiskConfig])
    (by norm_num [defaultRiskConfig, looseRiskConfig])
    (by norm_num [defaultRiskConfig, looseRiskConfig])
    (by
      have hfd : FilterDecision.approve ≠ FilterDecision.reject := by decide
      have hrd : RiskDecision.approved ≠ RiskDecision.rejected := by decide
      norm_num [getDecision, riskStageOut, riskAnalyze, checkConstraints,
        calculateCurrentDrawdown, calculatePositionSize, approveTrade,
        rejectTrade, weightedSignal, weightedConfidence, stdExceeds,
        popVariance, listMean, clampQ, ratMin, ratMax, ratAbs, holdDecision,
        wTechnical, wMlFilter, wRisk, hfd, hrd,
        defaultMetaConfig, defaultRiskConfig, scenarioState, demoTech, demoML]
      decide)

end GoldTrading
